import Mathlib

/-!
Shallow embedding of `simdpp/detail/cast.inl` (libsimdpp): the compile-time
cast dispatcher that reinterprets one fixed-width SIMD vector/mask type as
another.  Types are modelled by their element kind and lane count, values by
their raw storage bytes, and the C++ static assertions by `Except.error`
results carrying the assertion message (the "compile error" of the model).
-/

namespace Simdpp

/-- Element kinds of the simdpp vector and mask types that take part in the
casts of `cast.inl`: 8/16/32/64-bit integer lanes (signed and unsigned),
single/double precision float lanes, and the six mask kinds. -/
inductive ElemKind where
  | int8 | int16 | int32 | int64
  | uint8 | uint16 | uint32 | uint64
  | float32 | float64
  | mask_int8 | mask_int16 | mask_int32 | mask_int64
  | mask_float32 | mask_float64
deriving DecidableEq, Repr

/-- Whether a kind is one of the six mask kinds (the simdpp `is_mask_vector`
trait used to pick the `cast_wrapper` specialization). -/
def is_mask : ElemKind → Bool
  | .mask_int8 | .mask_int16 | .mask_int32 | .mask_int64
  | .mask_float32 | .mask_float64 => true
  | _ => false

/-- Storage width of one lane, in bytes. -/
def elem_bytes : ElemKind → Nat
  | .int8 | .uint8 | .mask_int8 => 1
  | .int16 | .uint16 | .mask_int16 => 2
  | .int32 | .uint32 | .float32 | .mask_int32 | .mask_float32 => 4
  | .int64 | .uint64 | .float64 | .mask_int64 | .mask_float64 => 8

/-- The simdpp `size_tag` of a type: the compile-time size class of the
element width (SIMDPP_TAG_SIZE8/16/32/64), shared by all kinds of the same
lane width. -/
def size_tag : ElemKind → Nat
  | .int8 | .uint8 | .mask_int8 => 8
  | .int16 | .uint16 | .mask_int16 => 16
  | .int32 | .uint32 | .float32 | .mask_int32 | .mask_float32 => 32
  | .int64 | .uint64 | .float64 | .mask_int64 | .mask_float64 => 64

/-- The `base_mask_vector_type` trait of `cast.inl`: the six partial
specializations map each mask kind to its base vector kind, and the primary
template maps every other kind to itself. -/
def base_mask_vector_type : ElemKind → ElemKind
  | .mask_int8 => .uint8
  | .mask_int16 => .uint16
  | .mask_int32 => .uint32
  | .mask_int64 => .uint64
  | .mask_float32 => .float32
  | .mask_float64 => .float64
  | k => k

/-- Which kinds have a dedicated `base_mask_vector_type` partial
specialization in `cast.inl`: `some` records the entry of the lookup table,
`none` means only the identity primary template applies. -/
def base_mask_vector_entry : ElemKind → Option ElemKind
  | .mask_int8 => some .uint8
  | .mask_int16 => some .uint16
  | .mask_int32 => some .uint32
  | .mask_int64 => some .uint64
  | .mask_float32 => some .float32
  | .mask_float64 => some .float64
  | _ => none

/-- The mask kind produced when comparing vectors of a given kind
(the result kind of simdpp `cmp_neq`): integer lanes give the integer mask
of the same width, float lanes the float mask; a mask kind compares to
itself. -/
def mask_kind_of : ElemKind → ElemKind
  | .int8 | .uint8 | .mask_int8 => .mask_int8
  | .int16 | .uint16 | .mask_int16 => .mask_int16
  | .int32 | .uint32 | .mask_int32 => .mask_int32
  | .int64 | .uint64 | .mask_int64 => .mask_int64
  | .float32 | .mask_float32 => .mask_float32
  | .float64 | .mask_float64 => .mask_float64

/-- A simdpp vector or mask type: an element kind and a lane count. -/
structure VecType where
  kind : ElemKind
  nlanes : Nat
deriving DecidableEq, Repr

/-- Total storage size of a type in bytes (the C++ `sizeof`). -/
def sizeof_bytes (v : VecType) : Nat := elem_bytes v.kind * v.nlanes

/-- `base_mask_vector_type` lifted to types: the lane count is kept. -/
def base_vector (v : VecType) : VecType :=
  ⟨base_mask_vector_type v.kind, v.nlanes⟩

/-- A runtime value: its declared type together with its raw storage bytes. -/
structure Value where
  ty : VecType
  bytes : List Nat
deriving DecidableEq, Repr

/-- The `cast_memcpy` primitive of `cast.inl`: a static assertion that
`sizeof(R) == sizeof(T)` (message "Size mismatch"), then a raw `memcpy` of
the storage into a value of type `R`. -/
def cast_memcpy (R : VecType) (t : Value) : Except String Value :=
  if sizeof_bytes R = sizeof_bytes t.ty then Except.ok ⟨R, t.bytes⟩
  else Except.error ("Size mismatch")

/-- Modelled from the spec: the `unmask()` member of the mask types is an
external collaborator (simdpp/types, not under src/); per §6 the mask
"must expose an operation that yields its physical bit pattern interpreted
as that base vector type", so it is a type reinterpretation keeping the
bytes. -/
def unmask (t : Value) : Value := ⟨base_vector t.ty, t.bytes⟩

/-- The `cast_memcpy_unmask` helper of `cast.inl`: strip the source mask to
its base vector via `unmask()`, then `cast_memcpy` into `R`. -/
def cast_memcpy_unmask (R : VecType) (t : Value) : Except String Value :=
  cast_memcpy R (unmask t)

/-- Numeric value of one lane from its storage bytes (little-endian). -/
def laneVal : List Nat → Nat
  | [] => 0
  | b :: bs => b + 256 * laneVal bs

/-- Split a byte list into `n` lanes of `w` bytes each. -/
def laneChunks (w : Nat) : Nat → List Nat → List (List Nat)
  | 0, _ => []
  | Nat.succ n, bytes => bytes.take w :: laneChunks w n (bytes.drop w)

/-- The per-lane numeric values of a byte pattern read at a given type. -/
def lane_vals (ty : VecType) (bytes : List Nat) : List Nat :=
  (laneChunks (elem_bytes ty.kind) ty.nlanes bytes).map laneVal

/-- Storage of a mask with the given per-lane pattern, under the
all-ones/all-zeros per-lane convention the spec states for the modelled
targets: a true lane is `w` bytes of 0xFF, a false lane `w` bytes of 0. -/
def maskEncode (w : Nat) (p : List Bool) : List Nat :=
  (p.map (fun b => List.replicate w (if b then 255 else 0))).flatten

/-- The per-lane true/false pattern observed on a value: a lane is true
exactly when its stored numeric value is non-zero. -/
def mask_pattern (v : Value) : List Bool :=
  (lane_vals v.ty v.bytes).map (fun x => x != 0)

/-- Modelled from the spec: `make_zero` (simdpp/core, not under src/) is the
all-zero vector of a type. -/
def make_zero (ty : VecType) : Value := ⟨ty, List.replicate (sizeof_bytes ty) 0⟩

/-- Modelled from the spec: `cmp_neq` (simdpp/core/cmp_neq.h, not under
src/) is the external lane-wise not-equal comparison of §6: it yields a
mask of the matching mask kind whose lane is true exactly where the two
operands' lane values differ, stored with the all-ones/all-zeros
convention. -/
def cmp_neq (a b : Value) : Value :=
  ⟨⟨mask_kind_of a.ty.kind, a.ty.nlanes⟩,
    maskEncode (elem_bytes a.ty.kind)
      (List.zipWith (fun x y => x != y)
        (lane_vals a.ty a.bytes) (lane_vals b.ty b.bytes))⟩

/-- The `cast_memcpy_remask` helper of `cast.inl`: bit-copy `t.unmask()`
into the destination's base vector type `RR`, then rebuild the mask with
`cmp_neq(rr, make_zero())`. -/
def cast_memcpy_remask (R : VecType) (t : Value) : Except String Value :=
  match cast_memcpy (base_vector R) (unmask t) with
  | Except.ok rr => Except.ok (cmp_neq rr (make_zero (base_vector R)))
  | Except.error e => Except.error e

/-- Modelled from the spec: the mask-cast strategy flag (declared in
simdpp/detail/cast.h, not under src/); §3 gives it three values, and the
three mask-to-mask specializations of `cast.inl` name them. -/
inductive MaskCastStrategy where
  | CAST_MASK_MEMCPY | CAST_MASK_UNMASK | CAST_MASK_REMASK
deriving DecidableEq, Repr, Fintype

/-- The `detail::is_same` trait used to build the dependent condition of the
rejecting static assertion. -/
def is_same (a b : VecType) : Bool := a == b

/-- The dependent condition of the static assertion in
`cast_wrapper<true, false, MaskCastOverride>`: `!(is_same<T,T>::value)`. -/
def nonmask_to_mask_assert_cond (T : VecType) : Bool := !(is_same T T)

/-- The run behavior of the `cast_wrapper` specializations of `cast.inl`,
keyed by the dispatch flags `IsRMask`, `IsLMask` and the strategy.  Static
assertion failures are the `Except.error` results. -/
def cast_wrapper_run (isRMask isLMask : Bool) (s : MaskCastStrategy)
    (R : VecType) (t : Value) : Except String Value :=
  match isRMask, isLMask, s with
  | true, true, .CAST_MASK_MEMCPY =>
      if size_tag R.kind = size_tag t.ty.kind then cast_memcpy R t
      else Except.error
        ("Conversions between masks with different element size is not allowed")
  | true, true, .CAST_MASK_UNMASK =>
      if size_tag R.kind = size_tag t.ty.kind then cast_memcpy_unmask R t
      else Except.error
        ("Conversions between masks with different element size is not allowed")
  | true, true, .CAST_MASK_REMASK =>
      if size_tag R.kind = size_tag t.ty.kind then cast_memcpy_remask R t
      else Except.error
        ("Conversions between masks with different element size is not allowed")
  | true, false, _ =>
      Except.error ("Conversion from non-mask type to a mask type is not allowed")
  | false, true, _ => cast_memcpy_unmask R t
  | false, false, _ => cast_memcpy R t

/-- The six `cast_wrapper` specializations that exist in `cast.inl`.  The
first three are the full specializations for the mask-to-mask strategies;
the last three are the partial specializations whose strategy parameter
`MaskCastOverride` is free. -/
inductive CastSpec where
  | mask_mask_memcpy
  | mask_mask_unmask
  | mask_mask_remask
  | mask_from_nonmask
  | nonmask_from_mask
  | nonmask_nonmask
deriving DecidableEq, Repr, Fintype

/-- Whether a specialization's template pattern matches a concrete
(IsRMask, IsLMask, strategy) triple. -/
def spec_matches : CastSpec → Bool → Bool → MaskCastStrategy → Bool
  | .mask_mask_memcpy, true, true, s => s == .CAST_MASK_MEMCPY
  | .mask_mask_unmask, true, true, s => s == .CAST_MASK_UNMASK
  | .mask_mask_remask, true, true, s => s == .CAST_MASK_REMASK
  | .mask_from_nonmask, true, false, _ => true
  | .nonmask_from_mask, false, true, _ => true
  | .nonmask_nonmask, false, false, _ => true
  | _, _, _, _ => false

/-- The four behavior classes of the dispatcher. -/
inductive CastBehavior where
  | reject
  | bit_copy
  | unmask_copy
  | mask_strategy (s : MaskCastStrategy)
deriving DecidableEq, Repr

/-- The behavior each specialization implements. -/
def behavior_of : CastSpec → CastBehavior
  | .mask_mask_memcpy => .mask_strategy .CAST_MASK_MEMCPY
  | .mask_mask_unmask => .mask_strategy .CAST_MASK_UNMASK
  | .mask_mask_remask => .mask_strategy .CAST_MASK_REMASK
  | .mask_from_nonmask => .reject
  | .nonmask_from_mask => .unmask_copy
  | .nonmask_nonmask => .bit_copy

/-- Modelled from the spec: the dispatch table of §4.1, written from the
spec's words for comparison with the specialization list of the source. -/
def claimed_dispatch_table (isRMask isLMask : Bool) (s : MaskCastStrategy) :
    CastBehavior :=
  match isRMask, isLMask with
  | true, true => .mask_strategy s
  | true, false => .reject
  | false, true => .unmask_copy
  | false, false => .bit_copy

/-! Helper lemmas shared by the claim theorems. -/

theorem elem_bytes_pos (k : ElemKind) : 0 < elem_bytes k := by
  cases k <;> decide

theorem elem_bytes_base (k : ElemKind) :
    elem_bytes (base_mask_vector_type k) = elem_bytes k := by
  cases k <;> rfl

theorem elem_bytes_mask_kind_of (k : ElemKind) :
    elem_bytes (mask_kind_of k) = elem_bytes k := by
  cases k <;> rfl

theorem mask_kind_of_base (k : ElemKind) (h : is_mask k = true) :
    mask_kind_of (base_mask_vector_type k) = k := by
  cases k <;> first | rfl | simp [is_mask] at h

theorem base_of_nonmask (k : ElemKind) (h : is_mask k = false) :
    base_mask_vector_type k = k := by
  cases k <;> first | rfl | simp [is_mask] at h

theorem is_mask_base (k : ElemKind) :
    is_mask (base_mask_vector_type k) = false := by
  cases k <;> rfl

theorem sizeof_base (v : VecType) :
    sizeof_bytes (base_vector v) = sizeof_bytes v := by
  simp [sizeof_bytes, base_vector, elem_bytes_base]

theorem laneChunks_length (w : Nat) :
    ∀ (n : Nat) (bytes : List Nat), (laneChunks w n bytes).length = n := by
  intro n
  induction n with
  | zero => intro bytes; rfl
  | succ n ih => intro bytes; simp [laneChunks, ih]

theorem lane_vals_length (ty : VecType) (bytes : List Nat) :
    (lane_vals ty bytes).length = ty.nlanes := by
  simp [lane_vals, laneChunks_length]

theorem laneVal_replicate_zero (w : Nat) :
    laneVal (List.replicate w 0) = 0 := by
  induction w with
  | zero => rfl
  | succ w ih => simp [List.replicate, laneVal, ih]

theorem laneVal_replicate_ff (w : Nat) (hw : 0 < w) :
    laneVal (List.replicate w 255) ≠ 0 := by
  cases w with
  | zero => exact absurd hw (by decide)
  | succ w => simp [List.replicate, laneVal]

theorem laneChunks_cons (w n : Nat) (block rest : List Nat)
    (hb : block.length = w) :
    laneChunks w (n + 1) (block ++ rest) = block :: laneChunks w n rest := by
  simp [laneChunks, ← hb]

theorem laneChunks_encode (w : Nat) (f : Bool → List Nat)
    (hf : ∀ b, (f b).length = w) :
    ∀ p : List Bool, laneChunks w p.length ((p.map f).flatten) = p.map f := by
  intro p
  induction p with
  | nil => rfl
  | cons b p ih =>
      simp only [List.map_cons, List.flatten_cons, List.length_cons]
      rw [laneChunks_cons w p.length (f b) ((p.map f).flatten) (hf b), ih]

theorem laneChunks_replicate_zero (w : Nat) :
    ∀ n : Nat, laneChunks w n (List.replicate (w * n) 0) =
      List.replicate n (List.replicate w 0) := by
  intro n
  induction n with
  | zero => rfl
  | succ n ih =>
      have hsplit : List.replicate (w * (n + 1)) (0 : Nat) =
          List.replicate w 0 ++ List.replicate (w * n) 0 := by
        rw [← List.replicate_add]
        congr 1
        ring
      rw [hsplit,
        laneChunks_cons w n (List.replicate w 0) (List.replicate (w * n) 0)
          (List.length_replicate w 0),
        ih]
      rfl

theorem lane_vals_zero (ty : VecType) :
    lane_vals ty (List.replicate (sizeof_bytes ty) 0) =
      List.replicate ty.nlanes 0 := by
  simp [lane_vals, sizeof_bytes, laneChunks_replicate_zero,
    laneVal_replicate_zero]

theorem zipWith_bne_zero :
    ∀ (l : List Nat) (n : Nat), l.length = n →
      List.zipWith (fun x y => x != y) l (List.replicate n 0) =
        l.map (fun x => x != 0) := by
  intro l
  induction l with
  | nil => intro n h; simp
  | cons a l ih =>
      intro n h
      cases n with
      | zero => exact absurd h (by simp)
      | succ n =>
          simp only [List.replicate, List.zipWith_cons_cons, List.map_cons]
          rw [ih n (by simpa using h)]

theorem mask_pattern_encode (K : ElemKind) (n w : Nat) (p : List Bool)
    (hw : elem_bytes K = w) (hp : p.length = n) :
    mask_pattern ⟨⟨K, n⟩, maskEncode w p⟩ = p := by
  subst hw hp
  have hf : ∀ b : Bool,
      (List.replicate (elem_bytes K) (if b then (255 : Nat) else 0)).length =
        elem_bytes K := by
    intro b; exact List.length_replicate _ _
  have hlanes : lane_vals ⟨K, p.length⟩ (maskEncode (elem_bytes K) p) =
      p.map (fun b =>
        laneVal (List.replicate (elem_bytes K) (if b then 255 else 0))) := by
    simp only [lane_vals, maskEncode]
    rw [laneChunks_encode (elem_bytes K) _ hf p, List.map_map]
    rfl
  have hb : ∀ b : Bool,
      (laneVal (List.replicate (elem_bytes K) (if b then 255 else 0)) != 0) =
        b := by
    intro b
    cases b with
    | false => simp [laneVal_replicate_zero]
    | true => simp [laneVal_replicate_ff (elem_bytes K) (elem_bytes_pos K)]
  simp only [mask_pattern, hlanes, List.map_map]
  calc (p.map fun b =>
          laneVal (List.replicate (elem_bytes K) (if b then 255 else 0)) != 0)
      = p.map id := by
        apply List.map_congr_left
        intro b _
        exact hb b
    _ = p := List.map_id p

theorem cast_memcpy_remask_eq (R : VecType) (t : Value)
    (h : sizeof_bytes R = sizeof_bytes t.ty) :
    cast_memcpy_remask R t =
      Except.ok (cmp_neq ⟨base_vector R, t.bytes⟩
        (make_zero (base_vector R))) := by
  simp [cast_memcpy_remask, cast_memcpy, unmask, sizeof_base, h]

theorem mask_pattern_cmp_neq_zero (ty : VecType) (bytes : List Nat) :
    mask_pattern (cmp_neq ⟨ty, bytes⟩ (make_zero ty)) =
      (lane_vals ty bytes).map (fun x => x != 0) := by
  have hz : lane_vals ty (List.replicate (sizeof_bytes ty) 0) =
      List.replicate ty.nlanes 0 := lane_vals_zero ty
  have hq : List.zipWith (fun x y => x != y) (lane_vals ty bytes)
        (List.replicate ty.nlanes 0) =
      (lane_vals ty bytes).map (fun x => x != 0) :=
    zipWith_bne_zero (lane_vals ty bytes) ty.nlanes (lane_vals_length ty bytes)
  have hlen : ((lane_vals ty bytes).map (fun x => x != 0)).length =
      ty.nlanes := by
    simp [lane_vals_length]
  show mask_pattern ⟨⟨mask_kind_of ty.kind, ty.nlanes⟩,
      maskEncode (elem_bytes ty.kind)
        (List.zipWith (fun x y => x != y) (lane_vals ty bytes)
          (lane_vals ty (List.replicate (sizeof_bytes ty) 0)))⟩ =
    (lane_vals ty bytes).map (fun x => x != 0)
  rw [hz, hq]
  exact mask_pattern_encode (mask_kind_of ty.kind) ty.nlanes
    (elem_bytes ty.kind) ((lane_vals ty bytes).map (fun x => x != 0))
    (elem_bytes_mask_kind_of ty.kind) hlen

/-! Claim theorems. -/

/-- C1: instantiating the cast with a mask destination and a non-mask source
is rejected with the static assertion message "Conversion from non-mask type
to a mask type is not allowed" for every strategy-flag value, the dependent
assertion condition evaluates to false at every instantiation (so the
assertion fires exactly when that path is instantiated), and no execution
path yields a value. -/
theorem cast_nonmask_to_mask_rejected :
    (∀ (s : MaskCastStrategy) (R : VecType) (t : Value),
      cast_wrapper_run true false s R t =
        Except.error
          ("Conversion from non-mask type to a mask type is not allowed")) ∧
    (∀ T : VecType, nonmask_to_mask_assert_cond T = false) := by
  constructor
  · intro s R t; cases s <;> rfl
  · intro T; simp [nonmask_to_mask_assert_cond, is_same]

/-- C2: every (destination-is-mask, source-is-mask, strategy) combination is
matched by exactly one cast_wrapper specialization, the behavior of that
specialization is the one the spec's dispatch table assigns — reject,
bit-copy, unmask-then-bit-copy, or the strategy-selected mask behavior —
and the strategy-independent combinations run the corresponding primitive. -/
theorem cast_wrapper_dispatch_exhaustive :
    (∀ (rm lm : Bool) (s : MaskCastStrategy),
      ∃ c : CastSpec, spec_matches c rm lm s = true ∧
        ∀ c' : CastSpec, spec_matches c' rm lm s = true → c' = c) ∧
    (∀ (rm lm : Bool) (s : MaskCastStrategy) (c : CastSpec),
      spec_matches c rm lm s = true →
        behavior_of c = claimed_dispatch_table rm lm s) ∧
    (∀ (s : MaskCastStrategy) (R : VecType) (t : Value),
      cast_wrapper_run true false s R t =
        Except.error
          ("Conversion from non-mask type to a mask type is not allowed")) ∧
    (∀ (s : MaskCastStrategy) (R : VecType) (t : Value),
      cast_wrapper_run false true s R t = cast_memcpy_unmask R t) ∧
    (∀ (s : MaskCastStrategy) (R : VecType) (t : Value),
      cast_wrapper_run false false s R t = cast_memcpy R t) := by
  refine ⟨by decide, by decide, ?_, ?_, ?_⟩ <;>
    (intro s R t; cases s <;> rfl)

/-- C2 witness: the mask-from-nonmask specialization matches the
(true, false, CAST_MASK_UNMASK) combination and its behavior is reject. -/
theorem cast_wrapper_dispatch_witness :
    behavior_of CastSpec.mask_from_nonmask =
      claimed_dispatch_table true false MaskCastStrategy.CAST_MASK_UNMASK :=
  cast_wrapper_dispatch_exhaustive.2.1 true false
    MaskCastStrategy.CAST_MASK_UNMASK CastSpec.mask_from_nonmask (by decide)

/-- C3: when the storage sizes agree, cast_memcpy yields a value of the
destination type with exactly the source's bytes; when they disagree it is
the failed static assertion "Size mismatch" and no runtime value exists. -/
theorem cast_memcpy_spec (R : VecType) (t : Value) :
    (sizeof_bytes R = sizeof_bytes t.ty →
      cast_memcpy R t = Except.ok ⟨R, t.bytes⟩) ∧
    (sizeof_bytes R ≠ sizeof_bytes t.ty →
      cast_memcpy R t = Except.error ("Size mismatch")) := by
  constructor
  · intro h; simp [cast_memcpy, h]
  · intro h; simp [cast_memcpy, h]

/-- C3 witness: a 16-byte bit-copy between uint32x4 and float32x4 succeeds
bit-identically, and a 32-byte destination against a 16-byte source is the
"Size mismatch" assertion. -/
theorem cast_memcpy_spec_witness :
    cast_memcpy ⟨ElemKind.uint32, 4⟩
        ⟨⟨ElemKind.float32, 4⟩, List.replicate 16 1⟩ =
      Except.ok ⟨⟨ElemKind.uint32, 4⟩, List.replicate 16 1⟩ ∧
    cast_memcpy ⟨ElemKind.uint64, 4⟩
        ⟨⟨ElemKind.float32, 4⟩, List.replicate 16 1⟩ =
      Except.error ("Size mismatch") :=
  ⟨(cast_memcpy_spec ⟨ElemKind.uint32, 4⟩
      ⟨⟨ElemKind.float32, 4⟩, List.replicate 16 1⟩).1 (by decide),
   (cast_memcpy_spec ⟨ElemKind.uint64, 4⟩
      ⟨⟨ElemKind.float32, 4⟩, List.replicate 16 1⟩).2 (by decide)⟩

/-- C4 counterexample: mask_int32 with 8 lanes and mask_int32 with 4 lanes
are both mask types and share size tag 32, yet the memcpy-strategy cast is
the failed static assertion "Size mismatch" instead of compiling to a value
of the destination type. -/
theorem mask_mask_equal_size_tag_cast_fails :
    is_mask ElemKind.mask_int32 = true ∧
    size_tag ElemKind.mask_int32 = size_tag ElemKind.mask_int32 ∧
    cast_wrapper_run true true MaskCastStrategy.CAST_MASK_MEMCPY
        ⟨ElemKind.mask_int32, 8⟩
        ⟨⟨ElemKind.mask_int32, 4⟩, List.replicate 16 255⟩ =
      Except.error ("Size mismatch") :=
  ⟨rfl, rfl, rfl⟩

/-- C4 (amended): for mask types R and T, each of the three strategies fails
with "Conversions between masks with different element size is not allowed"
when the size tags differ; when the size tags agree and the total storage
sizes agree, the cast succeeds under every strategy with a result of the
declared destination type R. -/
theorem mask_mask_cast_spec (R T : VecType) (s : MaskCastStrategy)
    (bytes : List Nat) (hR : is_mask R.kind = true)
    (_hT : is_mask T.kind = true) :
    (size_tag R.kind ≠ size_tag T.kind →
      cast_wrapper_run true true s R ⟨T, bytes⟩ =
        Except.error
          ("Conversions between masks with different element size is not allowed")) ∧
    (size_tag R.kind = size_tag T.kind → sizeof_bytes R = sizeof_bytes T →
      ∃ v : Value, cast_wrapper_run true true s R ⟨T, bytes⟩ = Except.ok v ∧
        v.ty = R) := by
  constructor
  · intro h; cases s <;> simp [cast_wrapper_run, h]
  · intro htag hsz
    cases s with
    | CAST_MASK_MEMCPY =>
        refine ⟨⟨R, bytes⟩, ?_, rfl⟩
        simp [cast_wrapper_run, htag, cast_memcpy, hsz]
    | CAST_MASK_UNMASK =>
        refine ⟨⟨R, bytes⟩, ?_, rfl⟩
        simp [cast_wrapper_run, htag, cast_memcpy_unmask, cast_memcpy,
          unmask, sizeof_base, hsz]
    | CAST_MASK_REMASK =>
        refine ⟨cmp_neq ⟨base_vector R, bytes⟩ (make_zero (base_vector R)),
          ?_, ?_⟩
        · simp only [cast_wrapper_run]
          rw [if_pos htag]
          exact cast_memcpy_remask_eq R ⟨T, bytes⟩ hsz
        · simp [cmp_neq, base_vector, mask_kind_of_base R.kind hR]

/-- C4 witness: the remask-strategy cast from mask_float32x4 to mask_int32x4
(equal size tags, equal sizes) succeeds with a value of type mask_int32x4. -/
theorem mask_mask_cast_spec_witness :
    ∃ v : Value,
      cast_wrapper_run true true MaskCastStrategy.CAST_MASK_REMASK
          ⟨ElemKind.mask_int32, 4⟩
          ⟨⟨ElemKind.mask_float32, 4⟩, List.replicate 16 255⟩ =
        Except.ok v ∧ v.ty = ⟨ElemKind.mask_int32, 4⟩ :=
  (mask_mask_cast_spec ⟨ElemKind.mask_int32, 4⟩ ⟨ElemKind.mask_float32, 4⟩
      MaskCastStrategy.CAST_MASK_REMASK (List.replicate 16 255)
      (by decide) (by decide)).2 (by decide) (by decide)

/-- C5: when the bit-copy into the destination's base vector type is
possible, cast_memcpy_remask returns a mask of the destination type whose
per-lane pattern is exactly "the raw lane value is non-zero", for every
input bit pattern. -/
theorem cast_memcpy_remask_spec (R : VecType) (t : Value)
    (hR : is_mask R.kind = true)
    (hsz : sizeof_bytes R = sizeof_bytes t.ty) :
    ∃ r : Value, cast_memcpy_remask R t = Except.ok r ∧ r.ty = R ∧
      mask_pattern r =
        (lane_vals (base_vector R) t.bytes).map (fun x => x != 0) := by
  refine ⟨cmp_neq ⟨base_vector R, t.bytes⟩ (make_zero (base_vector R)),
    cast_memcpy_remask_eq R t hsz, ?_,
    mask_pattern_cmp_neq_zero (base_vector R) t.bytes⟩
  simp [cmp_neq, base_vector, mask_kind_of_base R.kind hR]

/-- C5 witness: remasking the raw bytes 0,0,5,0 at mask_int16x2 gives the
lane pattern false, true. -/
theorem cast_memcpy_remask_spec_witness :
    ∃ r : Value,
      cast_memcpy_remask ⟨ElemKind.mask_int16, 2⟩
          ⟨⟨ElemKind.mask_int16, 2⟩, [0, 0, 5, 0]⟩ = Except.ok r ∧
      r.ty = ⟨ElemKind.mask_int16, 2⟩ ∧
      mask_pattern r =
        (lane_vals (base_vector ⟨ElemKind.mask_int16, 2⟩) [0, 0, 5, 0]).map
          (fun x => x != 0) :=
  cast_memcpy_remask_spec ⟨ElemKind.mask_int16, 2⟩
    ⟨⟨ElemKind.mask_int16, 2⟩, [0, 0, 5, 0]⟩ (by decide) (by decide)

/-- C6: for every mask kind, lane count and lane pattern (all-true,
all-false, alternating, any other), casting the mask to its base vector type
and then remask-casting that vector back to the mask type yields a mask of
the original type with exactly the original per-lane pattern. -/
theorem mask_round_trip (K : ElemKind) (n : Nat) (p : List Bool)
    (s : MaskCastStrategy) (hK : is_mask K = true) (hp : p.length = n) :
    ∃ v r : Value,
      cast_wrapper_run (is_mask (base_vector ⟨K, n⟩).kind) (is_mask K) s
          (base_vector ⟨K, n⟩) ⟨⟨K, n⟩, maskEncode (elem_bytes K) p⟩ =
        Except.ok v ∧
      cast_memcpy_remask ⟨K, n⟩ v = Except.ok r ∧
      r.ty = ⟨K, n⟩ ∧ mask_pattern r = p := by
  have hb : is_mask (base_vector ⟨K, n⟩).kind = false := is_mask_base K
  rw [hb, hK]
  refine ⟨⟨base_vector ⟨K, n⟩, maskEncode (elem_bytes K) p⟩,
    cmp_neq ⟨base_vector ⟨K, n⟩, maskEncode (elem_bytes K) p⟩
      (make_zero (base_vector ⟨K, n⟩)), ?_, ?_, ?_, ?_⟩
  · cases s <;> simp [cast_wrapper_run, cast_memcpy_unmask, cast_memcpy,
      unmask]
  · exact cast_memcpy_remask_eq ⟨K, n⟩
      ⟨base_vector ⟨K, n⟩, maskEncode (elem_bytes K) p⟩
      (sizeof_base ⟨K, n⟩).symm
  · simp [cmp_neq, base_vector, mask_kind_of_base K hK]
  · rw [mask_pattern_cmp_neq_zero]
    exact mask_pattern_encode (base_mask_vector_type K) n (elem_bytes K) p
      (elem_bytes_base K) hp

/-- C6 witness: the alternating pattern true, false, true, false on
mask_int8x4 survives the base-vector round trip unchanged. -/
theorem mask_round_trip_witness :
    ∃ v r : Value,
      cast_wrapper_run (is_mask (base_vector ⟨ElemKind.mask_int8, 4⟩).kind)
          (is_mask ElemKind.mask_int8) MaskCastStrategy.CAST_MASK_MEMCPY
          (base_vector ⟨ElemKind.mask_int8, 4⟩)
          ⟨⟨ElemKind.mask_int8, 4⟩,
            maskEncode (elem_bytes ElemKind.mask_int8)
              [true, false, true, false]⟩ =
        Except.ok v ∧
      cast_memcpy_remask ⟨ElemKind.mask_int8, 4⟩ v = Except.ok r ∧
      r.ty = ⟨ElemKind.mask_int8, 4⟩ ∧
      mask_pattern r = [true, false, true, false] :=
  mask_round_trip ElemKind.mask_int8 4 [true, false, true, false]
    MaskCastStrategy.CAST_MASK_MEMCPY (by decide) (by decide)

/-- C7: for non-mask vector types A and B of equal storage size, casting a
value of A to B and the result back to A yields the original value
bit-identically, whatever strategy flags are supplied. -/
theorem nonmask_round_trip (A B : VecType) (bytes : List Nat)
    (s s' : MaskCastStrategy) (hA : is_mask A.kind = false)
    (hB : is_mask B.kind = false)
    (hsz : sizeof_bytes A = sizeof_bytes B) :
    ∃ v : Value,
      cast_wrapper_run (is_mask B.kind) (is_mask A.kind) s B ⟨A, bytes⟩ =
        Except.ok v ∧
      cast_wrapper_run (is_mask A.kind) (is_mask B.kind) s' A v =
        Except.ok ⟨A, bytes⟩ := by
  rw [hA, hB]
  refine ⟨⟨B, bytes⟩, ?_, ?_⟩
  · cases s <;> simp [cast_wrapper_run, cast_memcpy, hsz]
  · cases s' <;> simp [cast_wrapper_run, cast_memcpy, hsz]

/-- C7 witness: a concrete int32x4 value round-trips through float32x4
bit-identically. -/
theorem nonmask_round_trip_witness :
    ∃ v : Value,
      cast_wrapper_run (is_mask ElemKind.float32) (is_mask ElemKind.int32)
          MaskCastStrategy.CAST_MASK_MEMCPY ⟨ElemKind.float32, 4⟩
          ⟨⟨ElemKind.int32, 4⟩, List.replicate 16 9⟩ = Except.ok v ∧
      cast_wrapper_run (is_mask ElemKind.int32) (is_mask ElemKind.float32)
          MaskCastStrategy.CAST_MASK_MEMCPY ⟨ElemKind.int32, 4⟩ v =
        Except.ok ⟨⟨ElemKind.int32, 4⟩, List.replicate 16 9⟩ :=
  nonmask_round_trip ⟨ElemKind.int32, 4⟩ ⟨ElemKind.float32, 4⟩
    (List.replicate 16 9) MaskCastStrategy.CAST_MASK_MEMCPY
    MaskCastStrategy.CAST_MASK_MEMCPY (by decide) (by decide) (by decide)

/-- C8: a cast from a mask source to a non-mask destination strips the mask
to its base vector representation and bit-copies it: it equals
cast_memcpy of the unmasked value, succeeds bit-identically exactly when the
total byte sizes agree, and fails with "Size mismatch" otherwise — no
size-tag condition appears anywhere. -/
theorem unmask_cast_spec (R T : VecType) (bytes : List Nat)
    (s : MaskCastStrategy) (hR : is_mask R.kind = false)
    (hT : is_mask T.kind = true) :
    cast_wrapper_run (is_mask R.kind) (is_mask T.kind) s R ⟨T, bytes⟩ =
      cast_memcpy R (unmask ⟨T, bytes⟩) ∧
    (sizeof_bytes R = sizeof_bytes T →
      cast_wrapper_run (is_mask R.kind) (is_mask T.kind) s R ⟨T, bytes⟩ =
        Except.ok ⟨R, bytes⟩) ∧
    (sizeof_bytes R ≠ sizeof_bytes T →
      cast_wrapper_run (is_mask R.kind) (is_mask T.kind) s R ⟨T, bytes⟩ =
        Except.error ("Size mismatch")) := by
  rw [hR, hT]
  refine ⟨?_, ?_, ?_⟩
  · cases s <;> rfl
  · intro h
    cases s <;> simp [cast_wrapper_run, cast_memcpy_unmask, cast_memcpy,
      unmask, sizeof_base, h]
  · intro h
    cases s <;> simp [cast_wrapper_run, cast_memcpy_unmask, cast_memcpy,
      unmask, sizeof_base, h]

/-- C8 witness: mask_int8x16 (size tag 8) casts into uint32x4 (size tag 32):
the size tags differ but the 16-byte storages agree, so the unmask-then-copy
succeeds bit-identically. -/
theorem unmask_cast_spec_witness :
    cast_wrapper_run (is_mask ElemKind.uint32) (is_mask ElemKind.mask_int8)
        MaskCastStrategy.CAST_MASK_MEMCPY ⟨ElemKind.uint32, 4⟩
        ⟨⟨ElemKind.mask_int8, 16⟩, List.replicate 16 255⟩ =
      Except.ok ⟨⟨ElemKind.uint32, 4⟩, List.replicate 16 255⟩ :=
  (unmask_cast_spec ⟨ElemKind.uint32, 4⟩ ⟨ElemKind.mask_int8, 16⟩
      (List.replicate 16 255) MaskCastStrategy.CAST_MASK_MEMCPY
      (by decide) (by decide)).2.1 (by decide)

/-- C9 counterexample: uint32 is outside the six mask kinds and has no entry
in the lookup table, yet the lookup does not fail: the identity primary
template resolves it to uint32 itself — a default/fallback mapping. -/
theorem base_mask_vector_fallback_counterexample :
    is_mask ElemKind.uint32 = false ∧
    base_mask_vector_entry ElemKind.uint32 = none ∧
    base_mask_vector_type ElemKind.uint32 = ElemKind.uint32 :=
  ⟨rfl, rfl, rfl⟩

/-- C9 (amended): the lookup table maps each of the six supported mask kinds
to its corresponding base vector kind and is exhaustive over those six; for
every kind outside them there is no table entry, and the lookup resolves
through the identity primary template to the type itself instead of being a
compile error. -/
theorem base_mask_vector_table_spec :
    base_mask_vector_entry ElemKind.mask_int8 = some ElemKind.uint8 ∧
    base_mask_vector_entry ElemKind.mask_int16 = some ElemKind.uint16 ∧
    base_mask_vector_entry ElemKind.mask_int32 = some ElemKind.uint32 ∧
    base_mask_vector_entry ElemKind.mask_int64 = some ElemKind.uint64 ∧
    base_mask_vector_entry ElemKind.mask_float32 = some ElemKind.float32 ∧
    base_mask_vector_entry ElemKind.mask_float64 = some ElemKind.float64 ∧
    (∀ k : ElemKind, is_mask k = true →
      ∃ b : ElemKind, base_mask_vector_entry k = some b ∧
        base_mask_vector_type k = b ∧ is_mask b = false) ∧
    (∀ k : ElemKind, is_mask k = false →
      base_mask_vector_entry k = none ∧ base_mask_vector_type k = k) := by
  refine ⟨rfl, rfl, rfl, rfl, rfl, rfl, ?_, ?_⟩
  · intro k hk
    cases k <;> first | exact ⟨_, rfl, rfl, rfl⟩ | simp [is_mask] at hk
  · intro k hk
    cases k <;> first | exact ⟨rfl, rfl⟩ | simp [is_mask] at hk

/-- C9 witness: int8 has no entry in the table and the lookup falls back to
int8 itself. -/
theorem base_mask_vector_table_spec_witness :
    base_mask_vector_entry ElemKind.int8 = none ∧
    base_mask_vector_type ElemKind.int8 = ElemKind.int8 :=
  base_mask_vector_table_spec.2.2.2.2.2.2.2 ElemKind.int8 (by decide)

/-- C10: for every kind that is not one of the six mask kinds, the
base_mask_vector_type lookup resolves via the identity primary template to
the kind itself, silently, instead of failing. -/
theorem base_mask_vector_identity_default (k : ElemKind)
    (h : is_mask k = false) : base_mask_vector_type k = k := by
  cases k <;> first | rfl | simp [is_mask] at h

/-- C10 witness: float32 is not a mask kind and maps to itself. -/
theorem base_mask_vector_identity_default_witness :
    base_mask_vector_type ElemKind.float32 = ElemKind.float32 :=
  base_mask_vector_identity_default ElemKind.float32 (by decide)

end Simdpp
